import Mathlib

/-
Verification of sfepy/homogenization/coefs_elastic.py.

The file embeds the three generator methods of that module
(CorrectorsElasticRS.get_variables, ElasticCoef.get_variables,
ElasticBiotCoef.get_variables) as pure Lean functions.  A call is modelled
as draining the generator completely: the result is either the finite list
of yielded (variable_name, field_value) records together with the final
heap, or the Python exception raised before the first yield (in this module
every fallible operation precedes the single yield of each generator, so a
raised exception always means that no record was produced).

Numeric fields are lists of rationals.  Python dictionaries become
association lists, slices become (start, stop) pairs with Python's clamping
semantics, and numpy elementwise addition is modelled including its
length-1 broadcasting and its ValueError on incompatible shapes.

Mutable state visible to the generators (the resolved dependency data
mapping and the problem context's variable table) is collected in a Heap
value that is threaded through the computation, so that preservation of the
heap is a statable property rather than a modelling assumption.
-/

namespace CoefsElastic

/-- Python exceptions that the embedded code can raise. -/
inductive PyErr where
  | keyError (k : String)
  | keyErrorIdx (k : Nat × Nat)
  | indexError
  | typeError
  | valueError
  deriving DecidableEq, Repr

/-- Python slice object slice(start, stop) with nonnegative bounds, as used
by a corrector's index map di.indx. -/
structure Slice where
  start : Nat
  stop : Nat
  deriving DecidableEq, Repr

/-- The di attribute of a corrector: indx maps a primary-variable name to
the slice of the concatenated state vector holding that variable. -/
structure DimInfo where
  indx : List (String × Slice)
  deriving DecidableEq, Repr

/-- A corrector dependency: di.indx plus states, the mapping from an index
pair (ir, ic) to the concatenated state vector. -/
structure Corrector where
  di : DimInfo
  states : List ((Nat × Nat) × List ℚ)
  deriving DecidableEq, Repr

/-- A perturbation-field dependency ("pis"): mapping from an index pair
(ir, ic) to the base field value. -/
abbrev PisData := List ((Nat × Nat) × List ℚ)

/-- A resolved dependency handed over in the data mapping: either a
perturbation field or a corrector. -/
inductive Dep where
  | pis (p : PisData)
  | corr (c : Corrector)
  deriving DecidableEq, Repr

/-- The problem context's record for one declared variable: its
primary_var_name and its field.n_nod node count. -/
structure PVar where
  primary_var_name : String
  field_n_nod : Nat
  deriving DecidableEq, Repr

/-- The mutable state visible to a get_variables call: the resolved
dependency data mapping and the problem context's variable table. -/
structure Heap where
  data : List (String × Dep)
  problemVars : List (String × PVar)
  deriving DecidableEq, Repr

/-- The requires and variables lists that a coefficient evaluator instance
declares. -/
structure Coef where
  requires : List String
  «variables» : List String
  deriving DecidableEq, Repr

/-- One yielded substitution record (variable_name, field_value). -/
abbrev SubstRecord := String × List ℚ

/-- Python dict lookup d[k]: KeyError when the key is absent. -/
def pyDictGet {α : Type} (m : List (String × α)) (k : String) :
    Except PyErr α :=
  match m.lookup k with
  | some v => .ok v
  | none => .error (.keyError k)

/-- Python lookup x[ir, ic] on a mapping keyed by index pairs. -/
def pyPairGet {α : Type} (m : List ((Nat × Nat) × α)) (ir ic : Nat) :
    Except PyErr α :=
  match m.lookup (ir, ic) with
  | some v => .ok v
  | none => .error (.keyErrorIdx (ir, ic))

/-- Python list indexing l[i] for a nonnegative index: IndexError when out
of range. -/
def pyGetIdx {α : Type} (l : List α) (i : Nat) : Except PyErr α :=
  match l[i]? with
  | some v => .ok v
  | none => .error .indexError

/-- Python list indexing l[-1]: the last element, IndexError on empty. -/
def pyGetLast {α : Type} (l : List α) : Except PyErr α :=
  match l.getLast? with
  | some v => .ok v
  | none => .error .indexError

/-- The list comprehension [m[k] for k in ks]: looks every key up in
order, raising KeyError at the first absent one. -/
def pyLookupAll {α : Type} (m : List (String × α)) :
    List String → Except PyErr (List α)
  | [] => .ok []
  | k :: ks => do
    let v ← pyDictGet m k
    let rest ← pyLookupAll m ks
    .ok (v :: rest)

/-- Python tuple unpacking a, b = l: ValueError unless l has exactly two
elements. -/
def pyUnpack2 {α : Type} (l : List α) : Except PyErr (α × α) :=
  match l with
  | [a, b] => .ok (a, b)
  | _ => .error .valueError

/-- Using a dependency as a perturbation field (subscripting it with an
index pair): a TypeError-class failure when it is a corrector instead. -/
def Dep.asPis : Dep → Except PyErr PisData
  | .pis p => .ok p
  | _ => .error .typeError

/-- Using a dependency as a corrector (accessing .di / .states): an
AttributeError-class failure, modelled as typeError, when it is a
perturbation field instead. -/
def Dep.asCorr : Dep → Except PyErr Corrector
  | .corr c => .ok c
  | _ => .error .typeError

/-- Applying a slice to a one-dimensional array, with Python's clamping
semantics for nonnegative bounds. -/
def pySlice (v : List ℚ) (s : Slice) : List ℚ :=
  (v.drop s.start).take (s.stop - s.start)

/-- Numpy elementwise addition of one-dimensional arrays: elementwise when
the lengths agree, broadcasting when one operand has length one, ValueError
otherwise. -/
def nmAdd (a b : List ℚ) : Except PyErr (List ℚ) :=
  if a.length = b.length then .ok (List.zipWith (fun x y => x + y) a b)
  else if a.length = 1 then .ok (b.map (fun y => a.headD 0 + y))
  else if b.length = 1 then .ok (a.map (fun x => x + b.headD 0))
  else .error .valueError

/-- CorrectorsElasticRS.get_variables(self, ir, ic, data), lines 7-10 of
coefs_elastic.py: pis = data[self.requires[0]];
yield (self.«variables»[-1], pis[ir, ic]).  Note the signature has no
problem-context and no mode parameter. -/
def CorrectorsElasticRS.get_variables (self : Coef) (ir ic : Nat)
    (s : Heap) : Except PyErr (List SubstRecord × Heap) := do
  let r0 ← pyGetIdx self.requires 0
  let dep ← pyDictGet s.data r0
  let pis ← dep.asPis
  let vlast ← pyGetLast self.«variables»
  let pval ← pyPairGet pis ir ic
  .ok ([(vlast, pval)], s)

/-- ElasticCoef.mode2var = {'row': 0, 'col': 1}, line 15 of
coefs_elastic.py. -/
def ElasticCoef.mode2var : List (String × Nat) := [("row", 0), ("col", 1)]

/-- ElasticCoef.get_variables(self, problem, ir, ic, data, mode), lines
17-27 of coefs_elastic.py, in source order:
pis, corrs = [data[ii] for ii in self.requires];
var_name = self.«variables»[self.mode2var[mode]];
c_name = problem.variables[var_name].primary_var_name;
indx = corrs.di.indx[c_name]; omega = corrs.states[ir, ic][indx];
pi = pis[ir, ic] + omega; yield (var_name, pi). -/
def ElasticCoef.get_variables (self : Coef) (ir ic : Nat) (mode : String)
    (s : Heap) : Except PyErr (List SubstRecord × Heap) := do
  let vals ← pyLookupAll s.data self.requires
  let dpair ← pyUnpack2 vals
  let mv ← pyDictGet ElasticCoef.mode2var mode
  let var_name ← pyGetIdx self.«variables» mv
  let pvar ← pyDictGet s.problemVars var_name
  let c_name := pvar.primary_var_name
  let corrs ← dpair.2.asCorr
  let indx ← pyDictGet corrs.di.indx c_name
  let st ← pyPairGet corrs.states ir ic
  let omega := pySlice st indx
  let dpis ← dpair.1.asPis
  let pval ← pyPairGet dpis ir ic
  let pisum ← nmAdd pval omega
  .ok ([(var_name, pisum)], s)

/-- ElasticBiotCoef.get_variables(self, problem, ir, ic, data, mode),
lines 32-47 of coefs_elastic.py.  For mode == 'col':
var_name = self.«variables»[0]; one_var = problem.variables[var_name];
one = nm.ones((one_var.field.n_nod,)); yield var_name, one.
Otherwise: var_name = self.«variables»[1];
c_name = problem.variables[var_name].primary_var_name;
corrs = [data[ii] for ii in self.requires][0];
indx = corrs.di.indx[c_name]; omega = corrs.states[ir, ic][indx];
yield var_name, omega. -/
def ElasticBiotCoef.get_variables (self : Coef) (ir ic : Nat)
    (mode : String) (s : Heap) : Except PyErr (List SubstRecord × Heap) :=
  if mode = "col" then do
    let var_name ← pyGetIdx self.«variables» 0
    let one_var ← pyDictGet s.problemVars var_name
    let one := List.replicate one_var.field_n_nod (1 : ℚ)
    .ok ([(var_name, one)], s)
  else do
    let var_name ← pyGetIdx self.«variables» 1
    let pvar ← pyDictGet s.problemVars var_name
    let c_name := pvar.primary_var_name
    let deps ← pyLookupAll s.data self.requires
    let dep0 ← pyGetIdx deps 0
    let corrs ← dep0.asCorr
    let indx ← pyDictGet corrs.di.indx c_name
    let st ← pyPairGet corrs.states ir ic
    let omega := pySlice st indx
    .ok ([(var_name, omega)], s)

/-- Concrete evaluator instance for the rank-4 scenario of the spec. -/
def exElasticCoef : Coef :=
  { requires := ["pis", "corrs_rs"], «variables» := ["u", "v"] }

/-- Concrete corrector for the rank-4 scenario: index_map sends "u" to
slice(0, 3) and the state at (0, 1) is [1, 2, 3]. -/
def exCorr : Corrector :=
  { di := { indx := [("u", { start := 0, stop := 3 })] }
    states := [((0, 1), [1, 2, 3])] }

/-- Concrete perturbation field for the rank-4 scenario: the value at
(0, 1) is [0.1, 0.1, 0.1]. -/
def exPis : PisData := [((0, 1), [1/10, 1/10, 1/10])]

/-- Concrete heap for the rank-4 scenario: both requires names resolved,
variable "u" has primary name "u". -/
def exHeap : Heap :=
  { data := [("pis", Dep.pis exPis), ("corrs_rs", Dep.corr exCorr)]
    problemVars := [("u", { primary_var_name := "u", field_n_nod := 3 }),
                    ("v", { primary_var_name := "u", field_n_nod := 3 })] }

/-- Concrete Biot evaluator instance: one corrector dependency, first
variable "one" (the constant probe side), second variable "uc" with primary
name "u". -/
def exBiotCoef : Coef := { requires := ["corrs"], «variables» := ["one", "uc"] }

/-- Concrete corrector for the Biot scenarios: "u" occupies slice(0, 3) and
two index pairs have states. -/
def exBiotCorr : Corrector :=
  { di := { indx := [("u", ⟨0, 3⟩)] }
    states := [((0, 0), [5, 6, 7, 8]), ((0, 1), [1, 2, 3, 4])] }

/-- Concrete heap for the Biot scenarios: the corrector dependency is
resolved, "one" has 4 nodes, "uc" has primary name "u". -/
def exBiotHeap : Heap :=
  { data := [("corrs", Dep.corr exBiotCorr)]
    problemVars := [("one", ⟨"one", 4⟩), ("uc", ⟨"u", 4⟩)] }

/-- Heap whose resolved data mapping is empty, so every requires name is
missing. -/
def exEmptyDataHeap : Heap :=
  { data := []
    problemVars := [("one", ⟨"one", 4⟩), ("uc", ⟨"u", 4⟩)] }

/-- Concrete CorrectorsElasticRS instance: the first requires name is
"pis" and the last declared variable is "uc". -/
def exRSCoef : Coef := { requires := ["pis"], «variables» := ["vc", "uc"] }

/-- Success equation for ElasticCoef.get_variables: when both requires
names resolve (perturbation field first, corrector second), the mode is
known to mode2var, and every lookup on the way succeeds, the call yields
exactly one record whose field is the elementwise sum of the
perturbation-field value and the corrector sub-vector, and the heap is
unchanged. -/
theorem elastic_gv_ok (self : Coef) (ir ic : Nat) (mode : String) (s : Heap)
    (r0 r1 v : String) (dp : PisData) (co : Corrector) (pv : PVar)
    (sl : Slice) (st pval : List ℚ) (mv : Nat)
    (hreq : self.requires = [r0, r1])
    (hd0 : s.data.lookup r0 = some (Dep.pis dp))
    (hd1 : s.data.lookup r1 = some (Dep.corr co))
    (hmv : ElasticCoef.mode2var.lookup mode = some mv)
    (hv : self.«variables»[mv]? = some v)
    (hpv : s.problemVars.lookup v = some pv)
    (hsl : co.di.indx.lookup pv.primary_var_name = some sl)
    (hst : co.states.lookup (ir, ic) = some st)
    (hp : dp.lookup (ir, ic) = some pval)
    (hlen : pval.length = (pySlice st sl).length) :
    ElasticCoef.get_variables self ir ic mode s
      = .ok ([(v, List.zipWith (fun x y => x + y) pval (pySlice st sl))], s) := by
  simp only [ElasticCoef.get_variables, pyLookupAll, pyDictGet, pyPairGet,
    pyGetIdx, pyUnpack2, Dep.asCorr, Dep.asPis, nmAdd, hreq, hd0, hd1, hmv,
    hv, hpv, hsl, hst, hp, hlen, bind, Except.bind, eq_self_iff_true,
    if_true, ite_true]

/-- Success equation for the col branch of ElasticBiotCoef.get_variables:
the first declared variable resolves in the problem context and the call
yields exactly one record with a field of n_nod ones, touching neither the
data mapping nor any corrector, for every index pair. -/
theorem biot_col_ok (self : Coef) (ir ic : Nat) (s : Heap) (v : String)
    (pv : PVar)
    (hv : self.«variables»[0]? = some v)
    (hpv : s.problemVars.lookup v = some pv) :
    ElasticBiotCoef.get_variables self ir ic "col" s
      = .ok ([(v, List.replicate pv.field_n_nod (1 : ℚ))], s) := by
  simp only [ElasticBiotCoef.get_variables, pyDictGet, pyGetIdx, hv, hpv,
    bind, Except.bind, reduceIte]

/-- Success equation for the else branch of ElasticBiotCoef.get_variables,
taken for every mode other than "col": the second declared variable
resolves, the single corrector dependency resolves, and the call yields
exactly one record whose field is the corrector sub-vector at (ir, ic),
with nothing added; the heap is unchanged. -/
theorem biot_row_ok (self : Coef) (ir ic : Nat) (mode : String) (s : Heap)
    (v : String) (pv : PVar) (r0 : String) (co : Corrector) (sl : Slice)
    (st : List ℚ)
    (hmode : mode ≠ "col")
    (hv : self.«variables»[1]? = some v)
    (hpv : s.problemVars.lookup v = some pv)
    (hreq : self.requires = [r0])
    (hd : s.data.lookup r0 = some (Dep.corr co))
    (hsl : co.di.indx.lookup pv.primary_var_name = some sl)
    (hst : co.states.lookup (ir, ic) = some st) :
    ElasticBiotCoef.get_variables self ir ic mode s
      = .ok ([(v, pySlice st sl)], s) := by
  simp only [ElasticBiotCoef.get_variables, pyLookupAll, pyDictGet,
    pyPairGet, pyGetIdx, Dep.asCorr, hmode, hv, hpv, hreq, hd, hsl, hst,
    bind, Except.bind, if_neg, ite_false, List.getElem?_cons_zero,
    Option.some.injEq]

/-- Success equation for CorrectorsElasticRS.get_variables: the first
requires name resolves to a perturbation field that has a value at
(ir, ic), and the call yields exactly one record pairing the last declared
variable with that value; the heap is unchanged. -/
theorem corrRS_ok (self : Coef) (ir ic : Nat) (s : Heap) (r0 : String)
    (p : PisData) (vlast : String) (pval : List ℚ)
    (hr : self.requires[0]? = some r0)
    (hd : s.data.lookup r0 = some (Dep.pis p))
    (hv : self.«variables».getLast? = some vlast)
    (hp : p.lookup (ir, ic) = some pval) :
    CorrectorsElasticRS.get_variables self ir ic s
      = .ok ([(vlast, pval)], s) := by
  simp only [CorrectorsElasticRS.get_variables, pyDictGet, pyPairGet,
    pyGetIdx, pyGetLast, Dep.asPis, hr, hd, hv, hp, bind, Except.bind]

/-- Heap preservation for ElasticCoef.get_variables: a successful drain
returns the heap it was given. -/
theorem elastic_gv_frame (self : Coef) (ir ic : Nat) (mode : String)
    (s : Heap) (recs : List SubstRecord) (s' : Heap)
    (h : ElasticCoef.get_variables self ir ic mode s = .ok (recs, s')) :
    s' = s := by
  simp only [ElasticCoef.get_variables, bind, Except.bind] at h
  repeat' split at h
  all_goals simp_all

/-- Heap preservation for ElasticBiotCoef.get_variables: a successful
drain returns the heap it was given. -/
theorem biot_gv_frame (self : Coef) (ir ic : Nat) (mode : String)
    (s : Heap) (recs : List SubstRecord) (s' : Heap)
    (h : ElasticBiotCoef.get_variables self ir ic mode s = .ok (recs, s')) :
    s' = s := by
  simp only [ElasticBiotCoef.get_variables, bind, Except.bind] at h
  repeat' split at h
  all_goals simp_all

/-- Heap preservation for CorrectorsElasticRS.get_variables: a successful
drain returns the heap it was given. -/
theorem corrRS_gv_frame (self : Coef) (ir ic : Nat) (s : Heap)
    (recs : List SubstRecord) (s' : Heap)
    (h : CorrectorsElasticRS.get_variables self ir ic s = .ok (recs, s')) :
    s' = s := by
  simp only [CorrectorsElasticRS.get_variables, bind, Except.bind] at h
  repeat' split at h
  all_goals simp_all

/-- C1: for every index pair (ir, ic) and every mode in {"row", "col"},
when the resolved data mapping contains the perturbation field and the
corrector under the evaluator's two declared requires names (and the
remaining lookups the source performs succeed), ElasticCoef.get_variables
yields exactly the pair (v, pis[ir, ic] + corrs.states[ir, ic][indx]),
where v is the variables entry at index 0 for mode "row" and at index 1
for mode "col", indx is di.indx at v's primary-variable name from the
problem context, and the addition is elementwise: the substituted field is
the superposition of the perturbation-field value and the corrector's
extracted sub-vector. -/
theorem claim_C1 (self : Coef) (ir ic : Nat) (mode : String) (s : Heap)
    (r0 r1 v : String) (dp : PisData) (co : Corrector) (pv : PVar)
    (sl : Slice) (st pval : List ℚ)
    (hmode : mode = "row" ∨ mode = "col")
    (hreq : self.requires = [r0, r1])
    (hd0 : s.data.lookup r0 = some (Dep.pis dp))
    (hd1 : s.data.lookup r1 = some (Dep.corr co))
    (hv : self.«variables»[if mode = "row" then 0 else 1]? = some v)
    (hpv : s.problemVars.lookup v = some pv)
    (hsl : co.di.indx.lookup pv.primary_var_name = some sl)
    (hst : co.states.lookup (ir, ic) = some st)
    (hp : dp.lookup (ir, ic) = some pval)
    (hlen : pval.length = (pySlice st sl).length) :
    ElasticCoef.get_variables self ir ic mode s
      = .ok ([(v, List.zipWith (fun x y => x + y) pval (pySlice st sl))], s) := by
  rcases hmode with h | h <;> subst h
  · exact elastic_gv_ok self ir ic "row" s r0 r1 v dp co pv sl st pval 0
      hreq hd0 hd1 rfl (by simpa using hv) hpv hsl hst hp hlen
  · exact elastic_gv_ok self ir ic "col" s r0 r1 v dp co pv sl st pval 1
      hreq hd0 hd1 rfl (by simpa using hv) hpv hsl hst hp hlen

/-- Witness for C1 at the concrete rank-4 scenario. -/
theorem claim_C1_witness :
    ElasticCoef.get_variables exElasticCoef 0 1 "row" exHeap
      = .ok ([("u", List.zipWith (fun x y => x + y) [1/10, 1/10, 1/10]
          (pySlice [1, 2, 3] ⟨0, 3⟩))], exHeap) :=
  claim_C1 exElasticCoef 0 1 "row" exHeap "pis" "corrs_rs" "u" exPis
    exCorr ⟨"u", 3⟩ ⟨0, 3⟩ [1, 2, 3] [1/10, 1/10, 1/10] (Or.inl rfl)
    rfl rfl rfl rfl rfl rfl rfl rfl rfl

/-- C2: in the concrete scenario with index_map sending "u" to
slice(0, 3), corrector state [1, 2, 3] at (0, 1), perturbation value
[0.1, 0.1, 0.1] at (0, 1), mode "row" and the variable at index 0 having
primary name "u", ElasticCoef.get_variables yields exactly the record
("u", [1.1, 2.1, 3.1]). -/
theorem claim_C2 :
    ElasticCoef.get_variables exElasticCoef 0 1 "row" exHeap
      = .ok ([("u", [11/10, 21/10, 31/10])], exHeap) := by
  have h := elastic_gv_ok exElasticCoef 0 1 "row" exHeap "pis" "corrs_rs"
    "u" exPis exCorr ⟨"u", 3⟩ ⟨0, 3⟩ [1, 2, 3] [1/10, 1/10, 1/10] 0
    rfl rfl rfl rfl rfl rfl rfl rfl rfl rfl
  rw [h]
  norm_num [pySlice, List.zipWith, List.take, List.drop]

/-- C3: for every index pair (ir, ic), ElasticBiotCoef.get_variables with
mode "col" yields exactly one record pairing the first declared variable
with a field of all ones of length n_nod; the field is the same for every
index pair and is produced without any lookup into the resolved data or
the corrector (the data mapping s.data is arbitrary and unused). -/
theorem claim_C3 (self : Coef) (ir ic : Nat) (s : Heap) (v : String)
    (pv : PVar)
    (hv : self.«variables»[0]? = some v)
    (hpv : s.problemVars.lookup v = some pv) :
    ElasticBiotCoef.get_variables self ir ic "col" s
      = .ok ([(v, List.replicate pv.field_n_nod (1 : ℚ))], s) :=
  biot_col_ok self ir ic s v pv hv hpv

/-- Witness for C3 at the concrete Biot scenario with 4 nodes. -/
theorem claim_C3_witness :
    ElasticBiotCoef.get_variables exBiotCoef 1 0 "col" exBiotHeap
      = .ok ([("one", List.replicate 4 (1 : ℚ))], exBiotHeap) :=
  claim_C3 exBiotCoef 1 0 exBiotHeap "one" ⟨"one", 4⟩ rfl rfl

/-- C4: for every index pair (ir, ic), ElasticBiotCoef.get_variables with
mode "row" yields exactly one record pairing the second declared variable
with the sub-vector corrs.states[ir, ic][corrs.di.indx[c]] of the single
corrector dependency, c being that variable's primary-variable name; no
perturbation-field value is added, so the field depends on the corrector's
state at (ir, ic) alone. -/
theorem claim_C4 (self : Coef) (ir ic : Nat) (s : Heap) (v : String)
    (pv : PVar) (r0 : String) (co : Corrector) (sl : Slice) (st : List ℚ)
    (hv : self.«variables»[1]? = some v)
    (hpv : s.problemVars.lookup v = some pv)
    (hreq : self.requires = [r0])
    (hd : s.data.lookup r0 = some (Dep.corr co))
    (hsl : co.di.indx.lookup pv.primary_var_name = some sl)
    (hst : co.states.lookup (ir, ic) = some st) :
    ElasticBiotCoef.get_variables self ir ic "row" s
      = .ok ([(v, pySlice st sl)], s) :=
  biot_row_ok self ir ic "row" s v pv r0 co sl st (by decide) hv hpv hreq
    hd hsl hst

/-- Witness for C4 at the concrete Biot scenario. -/
theorem claim_C4_witness :
    ElasticBiotCoef.get_variables exBiotCoef 0 1 "row" exBiotHeap
      = .ok ([("uc", [1, 2, 3])], exBiotHeap) :=
  claim_C4 exBiotCoef 0 1 exBiotHeap "uc" ⟨"u", 4⟩ "corrs" exBiotCorr
    ⟨0, 3⟩ [1, 2, 3, 4] rfl rfl rfl rfl rfl rfl

/-- Counterexample to C5 as stated: ElasticBiotCoef.get_variables with
mode "col" succeeds and yields its all-ones record even though the
resolved data mapping is empty, so the declared requires name "corrs" is
missing; no KeyError-class failure is raised. -/
theorem claim_C5_counterexample :
    exBiotCoef.requires = ["corrs"]
    ∧ exEmptyDataHeap.data.lookup "corrs" = none
    ∧ ElasticBiotCoef.get_variables exBiotCoef 0 0 "col" exEmptyDataHeap
        = .ok ([("one", List.replicate 4 (1 : ℚ))], exEmptyDataHeap) :=
  ⟨rfl, rfl, rfl⟩

/-- C5 amended: for ElasticCoef, in every mode, a missing requires name
makes the drained call fail with a KeyError naming the first missing
dependency, before any record is produced; for ElasticBiotCoef the same
holds in every mode other than "col" (once the second declared variable
resolves in the problem context, which the source consults first); in mode
"col" ElasticBiotCoef never reads the data mapping and yields its record
regardless. -/
theorem claim_C5_amended :
    (∀ (self : Coef) (ir ic : Nat) (mode : String) (s : Heap)
        (r0 r1 : String),
      self.requires = [r0, r1] →
      s.data.lookup r0 = none →
      ElasticCoef.get_variables self ir ic mode s
        = .error (.keyError r0))
  ∧ (∀ (self : Coef) (ir ic : Nat) (mode : String) (s : Heap)
        (r0 r1 : String) (d0 : Dep),
      self.requires = [r0, r1] →
      s.data.lookup r0 = some d0 →
      s.data.lookup r1 = none →
      ElasticCoef.get_variables self ir ic mode s
        = .error (.keyError r1))
  ∧ (∀ (self : Coef) (ir ic : Nat) (mode : String) (s : Heap)
        (r0 v : String) (pv : PVar),
      mode ≠ "col" →
      self.«variables»[1]? = some v →
      s.problemVars.lookup v = some pv →
      self.requires = [r0] →
      s.data.lookup r0 = none →
      ElasticBiotCoef.get_variables self ir ic mode s
        = .error (.keyError r0)) := by
  refine ⟨?_, ?_, ?_⟩
  · intro self ir ic mode s r0 r1 hreq hd0
    simp only [ElasticCoef.get_variables, pyLookupAll, pyDictGet, hreq,
      hd0, bind, Except.bind]
  · intro self ir ic mode s r0 r1 d0 hreq hd0 hd1
    simp only [ElasticCoef.get_variables, pyLookupAll, pyDictGet, hreq,
      hd0, hd1, bind, Except.bind]
  · intro self ir ic mode s r0 v pv hmode hv hpv hreq hd
    simp only [ElasticBiotCoef.get_variables, pyLookupAll, pyDictGet,
      pyGetIdx, hmode, hv, hpv, hreq, hd, bind, Except.bind, if_neg,
      ite_false]

/-- Witness for the amended C5: ElasticCoef with an empty data mapping
fails with KeyError "pis", and ElasticBiotCoef in mode "row" with an empty
data mapping fails with KeyError "corrs". -/
theorem claim_C5_amended_witness :
    ElasticCoef.get_variables exElasticCoef 0 1 "row" exEmptyDataHeap
      = .error (.keyError "pis")
    ∧ ElasticBiotCoef.get_variables exBiotCoef 0 1 "row" exEmptyDataHeap
      = .error (.keyError "corrs") :=
  ⟨claim_C5_amended.1 exElasticCoef 0 1 "row" exEmptyDataHeap "pis"
      "corrs_rs" rfl rfl,
    claim_C5_amended.2.2 exBiotCoef 0 1 "row" exEmptyDataHeap "corrs" "uc"
      ⟨"u", 4⟩ (by decide) rfl rfl rfl rfl⟩

/-- Counterexample to C6 as stated: ElasticBiotCoef.get_variables with the
mode "diag", which is neither "row" nor "col", does not fail: it takes the
default (else) branch and yields the corrector-derived record. -/
theorem claim_C6_counterexample :
    ("diag" : String) ≠ "row" ∧ ("diag" : String) ≠ "col"
    ∧ ElasticBiotCoef.get_variables exBiotCoef 0 1 "diag" exBiotHeap
        = .ok ([("uc", [1, 2, 3])], exBiotHeap) :=
  ⟨by decide, by decide, rfl⟩

/-- C6 amended: with a mode that is neither "row" nor "col",
ElasticCoef.get_variables fails with a KeyError naming the mode (raised by
the mode2var lookup, once the dependency lookups that precede it have
succeeded) and yields no record; ElasticBiotCoef, however, treats every
mode other than "col" like "row": it takes the corrector branch and yields
a record. -/
theorem claim_C6_amended :
    (∀ (self : Coef) (ir ic : Nat) (mode : String) (s : Heap)
        (r0 r1 : String) (d0 d1 : Dep),
      mode ≠ "row" → mode ≠ "col" →
      self.requires = [r0, r1] →
      s.data.lookup r0 = some d0 →
      s.data.lookup r1 = some d1 →
      ElasticCoef.get_variables self ir ic mode s
        = .error (.keyError mode))
  ∧ (∀ (self : Coef) (ir ic : Nat) (mode : String) (s : Heap)
        (v : String) (pv : PVar) (r0 : String) (co : Corrector)
        (sl : Slice) (st : List ℚ),
      mode ≠ "row" → mode ≠ "col" →
      self.«variables»[1]? = some v →
      s.problemVars.lookup v = some pv →
      self.requires = [r0] →
      s.data.lookup r0 = some (Dep.corr co) →
      co.di.indx.lookup pv.primary_var_name = some sl →
      co.states.lookup (ir, ic) = some st →
      ElasticBiotCoef.get_variables self ir ic mode s
        = .ok ([(v, pySlice st sl)], s)) := by
  constructor
  · intro self ir ic mode s r0 r1 d0 d1 h1 h2 hreq hd0 hd1
    have hb1 : (mode == "row") = false := beq_eq_false_iff_ne.mpr h1
    have hb2 : (mode == "col") = false := beq_eq_false_iff_ne.mpr h2
    have hnone : ElasticCoef.mode2var.lookup mode = none := by
      simp [ElasticCoef.mode2var, List.lookup, hb1, hb2]
    simp only [ElasticCoef.get_variables, pyLookupAll, pyDictGet,
      pyUnpack2, hreq, hd0, hd1, hnone, bind, Except.bind]
  · intro self ir ic mode s v pv r0 co sl st h1 h2 hv hpv hreq hd hsl hst
    exact biot_row_ok self ir ic mode s v pv r0 co sl st h2 hv hpv hreq
      hd hsl hst

/-- Witness for the amended C6: with mode "diag", ElasticCoef fails with
KeyError "diag" and ElasticBiotCoef yields the corrector record. -/
theorem claim_C6_amended_witness :
    ElasticCoef.get_variables exElasticCoef 0 1 "diag" exHeap
      = .error (.keyError "diag")
    ∧ ElasticBiotCoef.get_variables exBiotCoef 0 0 "diag" exBiotHeap
      = .ok ([("uc", pySlice [5, 6, 7, 8] ⟨0, 3⟩)], exBiotHeap) :=
  ⟨claim_C6_amended.1 exElasticCoef 0 1 "diag" exHeap "pis" "corrs_rs"
      (Dep.pis exPis) (Dep.corr exCorr) (by decide) (by decide) rfl rfl rfl,
    claim_C6_amended.2 exBiotCoef 0 0 "diag" exBiotHeap "uc" ⟨"u", 4⟩
      "corrs" exBiotCorr ⟨0, 3⟩ [5, 6, 7, 8] (by decide) (by decide)
      rfl rfl rfl rfl rfl rfl⟩

/-- C7: for every valid call the drained sequence of substitution records
is finite of length exactly one: ElasticCoef in any mode known to
mode2var, ElasticBiotCoef in mode "col", and ElasticBiotCoef in mode
"row" each yield exactly one record. -/
theorem claim_C7 :
    (∀ (self : Coef) (ir ic : Nat) (mode : String) (s : Heap)
        (r0 r1 v : String) (dp : PisData) (co : Corrector) (pv : PVar)
        (sl : Slice) (st pval : List ℚ) (mv : Nat),
      self.requires = [r0, r1] →
      s.data.lookup r0 = some (Dep.pis dp) →
      s.data.lookup r1 = some (Dep.corr co) →
      ElasticCoef.mode2var.lookup mode = some mv →
      self.«variables»[mv]? = some v →
      s.problemVars.lookup v = some pv →
      co.di.indx.lookup pv.primary_var_name = some sl →
      co.states.lookup (ir, ic) = some st →
      dp.lookup (ir, ic) = some pval →
      pval.length = (pySlice st sl).length →
      ∃ r, ElasticCoef.get_variables self ir ic mode s = .ok ([r], s))
  ∧ (∀ (self : Coef) (ir ic : Nat) (s : Heap) (v : String) (pv : PVar),
      self.«variables»[0]? = some v →
      s.problemVars.lookup v = some pv →
      ∃ r, ElasticBiotCoef.get_variables self ir ic "col" s
        = .ok ([r], s))
  ∧ (∀ (self : Coef) (ir ic : Nat) (s : Heap) (v : String) (pv : PVar)
        (r0 : String) (co : Corrector) (sl : Slice) (st : List ℚ),
      self.«variables»[1]? = some v →
      s.problemVars.lookup v = some pv →
      self.requires = [r0] →
      s.data.lookup r0 = some (Dep.corr co) →
      co.di.indx.lookup pv.primary_var_name = some sl →
      co.states.lookup (ir, ic) = some st →
      ∃ r, ElasticBiotCoef.get_variables self ir ic "row" s
        = .ok ([r], s)) := by
  refine ⟨?_, ?_, ?_⟩
  · intro self ir ic mode s r0 r1 v dp co pv sl st pval mv hreq hd0 hd1
      hmv hv hpv hsl hst hp hlen
    exact ⟨_, elastic_gv_ok self ir ic mode s r0 r1 v dp co pv sl st pval
      mv hreq hd0 hd1 hmv hv hpv hsl hst hp hlen⟩
  · intro self ir ic s v pv hv hpv
    exact ⟨_, biot_col_ok self ir ic s v pv hv hpv⟩
  · intro self ir ic s v pv r0 co sl st hv hpv hreq hd hsl hst
    exact ⟨_, biot_row_ok self ir ic "row" s v pv r0 co sl st (by decide)
      hv hpv hreq hd hsl hst⟩

/-- Witness for C7: one record per call at the concrete scenarios. -/
theorem claim_C7_witness :
    (∃ r, ElasticCoef.get_variables exElasticCoef 0 1 "col" exHeap
      = .ok ([r], exHeap))
    ∧ (∃ r, ElasticBiotCoef.get_variables exBiotCoef 1 1 "col" exBiotHeap
      = .ok ([r], exBiotHeap))
    ∧ (∃ r, ElasticBiotCoef.get_variables exBiotCoef 0 0 "row" exBiotHeap
      = .ok ([r], exBiotHeap)) :=
  ⟨claim_C7.1 exElasticCoef 0 1 "col" exHeap "pis" "corrs_rs" "v" exPis
      exCorr ⟨"u", 3⟩ ⟨0, 3⟩ [1, 2, 3] [1/10, 1/10, 1/10] 1 rfl rfl rfl
      rfl rfl rfl rfl rfl rfl rfl,
    claim_C7.2.1 exBiotCoef 1 1 exBiotHeap "one" ⟨"one", 4⟩ rfl rfl,
    claim_C7.2.2 exBiotCoef 0 0 exBiotHeap "uc" ⟨"u", 4⟩ "corrs"
      exBiotCorr ⟨0, 3⟩ [5, 6, 7, 8] rfl rfl rfl rfl rfl rfl⟩

/-- C8: every get_variables call in the family is free of side effects on
the state it reads: whenever a drained call succeeds, the heap it returns
(holding the resolved data mapping with the corrector's states and index
map and the perturbation-field mapping, and the problem context's variable
table) is exactly the heap it was given; and since each call is a pure
function of its arguments, two calls with identical inputs return
identical record sequences. -/
theorem claim_C8 :
    (∀ (self : Coef) (ir ic : Nat) (mode : String) (s : Heap)
        (recs : List SubstRecord) (s' : Heap),
      ElasticCoef.get_variables self ir ic mode s = .ok (recs, s')
        → s' = s)
  ∧ (∀ (self : Coef) (ir ic : Nat) (mode : String) (s : Heap)
        (recs : List SubstRecord) (s' : Heap),
      ElasticBiotCoef.get_variables self ir ic mode s = .ok (recs, s')
        → s' = s)
  ∧ (∀ (self : Coef) (ir ic : Nat) (s : Heap)
        (recs : List SubstRecord) (s' : Heap),
      CorrectorsElasticRS.get_variables self ir ic s = .ok (recs, s')
        → s' = s) :=
  ⟨fun self ir ic mode s recs s' h =>
      elastic_gv_frame self ir ic mode s recs s' h,
    fun self ir ic mode s recs s' h =>
      biot_gv_frame self ir ic mode s recs s' h,
    fun self ir ic s recs s' h =>
      corrRS_gv_frame self ir ic s recs s' h⟩

/-- Witness for C8 at a concrete Biot call: the returned heap is the given
heap. -/
theorem claim_C8_witness : exBiotHeap = exBiotHeap :=
  claim_C8.2.1 exBiotCoef 0 0 "col" exBiotHeap
    [("one", List.replicate 4 (1 : ℚ))] exBiotHeap rfl

/-- C9: for every index pair and every mode that is not the exact string
"col" (including "row", the empty string, or any other value),
ElasticBiotCoef.get_variables takes the corrector branch and yields
exactly one record pairing the second declared variable with the corrector
sub-vector at (ir, ic): every non-"col" mode behaves identically to mode
"row" and no error is raised for unrecognized modes. -/
theorem claim_C9 (self : Coef) (ir ic : Nat) (mode : String) (s : Heap)
    (v : String) (pv : PVar) (r0 : String) (co : Corrector) (sl : Slice)
    (st : List ℚ)
    (hmode : mode ≠ "col")
    (hv : self.«variables»[1]? = some v)
    (hpv : s.problemVars.lookup v = some pv)
    (hreq : self.requires = [r0])
    (hd : s.data.lookup r0 = some (Dep.corr co))
    (hsl : co.di.indx.lookup pv.primary_var_name = some sl)
    (hst : co.states.lookup (ir, ic) = some st) :
    ElasticBiotCoef.get_variables self ir ic mode s
      = .ok ([(v, pySlice st sl)], s) :=
  biot_row_ok self ir ic mode s v pv r0 co sl st hmode hv hpv hreq hd
    hsl hst

/-- Witness for C9 with the empty-string mode. -/
theorem claim_C9_witness :
    ElasticBiotCoef.get_variables exBiotCoef 0 0 "" exBiotHeap
      = .ok ([("uc", pySlice [5, 6, 7, 8] ⟨0, 3⟩)], exBiotHeap) :=
  claim_C9 exBiotCoef 0 0 "" exBiotHeap "uc" ⟨"u", 4⟩ "corrs" exBiotCorr
    ⟨0, 3⟩ [5, 6, 7, 8] (by decide) rfl rfl rfl rfl rfl rfl

/-- C10: for every index pair (ir, ic),
CorrectorsElasticRS.get_variables yields exactly one record pairing the
last entry of its variables list with the perturbation-field value
pis[ir, ic] taken from the first requires dependency; no corrector state
enters, and as its Lean signature shows the operation takes no
problem-context and no mode parameter, only (self, ir, ic) and the heap
holding data. -/
theorem claim_C10 (self : Coef) (ir ic : Nat) (s : Heap) (r0 : String)
    (p : PisData) (vlast : String) (pval : List ℚ)
    (hr : self.requires[0]? = some r0)
    (hd : s.data.lookup r0 = some (Dep.pis p))
    (hv : self.«variables».getLast? = some vlast)
    (hp : p.lookup (ir, ic) = some pval) :
    CorrectorsElasticRS.get_variables self ir ic s
      = .ok ([(vlast, pval)], s) :=
  corrRS_ok self ir ic s r0 p vlast pval hr hd hv hp

/-- Witness for C10 at the concrete scenario. -/
theorem claim_C10_witness :
    CorrectorsElasticRS.get_variables exRSCoef 0 1 exHeap
      = .ok ([("uc", [1/10, 1/10, 1/10])], exHeap) :=
  claim_C10 exRSCoef 0 1 exHeap "pis" exPis "uc" [1/10, 1/10, 1/10]
    rfl rfl rfl rfl

end CoefsElastic
